import Mathlib

/-!
Shallow embedding of `src/src/model.py` (MedicalDiagnosisModel) in Lean 4.

Python floats are modelled by rationals (ℚ); a Python dict of symptom
intensities is modelled by an association list `List (String × Option ℚ)`
in insertion order (`none` stands for a Python `None` value, which the
scoring loop skips explicitly and the pattern loop chokes on with a
TypeError).  Python `round(x, 3)` is modelled by rounding the rational to
three decimal digits.  Exceptions are modelled by `Except`.
-/

/-- Clamp to [0,1]: Python `min(max(x, 0.0), 1.0)`. -/
def clamp01 (x : ℚ) : ℚ := min (max x 0) 1

/-- Table `_initialize_symptom_weights`: importance weights, in insertion order. -/
def symptom_weights : List (String × ℚ) :=
  [("fiebre", 8/10), ("dolor_cabeza", 6/10), ("nausea", 5/10),
   ("fatiga", 4/10), ("dolor_pecho", 9/10), ("dificultad_respirar", 95/100),
   ("dolor_abdominal", 7/10), ("mareos", 5/10), ("perdida_peso", 6/10),
   ("tos", 6/10), ("congestion_nasal", 3/10), ("dolor_garganta", 4/10),
   ("dolor_muscular", 4/10), ("dolor_articular", 5/10),
   ("erupcion_cutanea", 6/10), ("sangrado", 8/10), ("cambios_vision", 7/10),
   ("confusion", 9/10), ("convulsiones", 95/100), ("dolor_espalda", 5/10)]

/-- Python dict lookup on an association list: first entry whose key matches. -/
def lookupKey {α : Type} (s : String) : List (String × α) → Option α
  | [] => none
  | (k, v) :: t => if k = s then some v else lookupKey s t

/-- Dict lookup `self.symptom_weights.get(s)` / membership test. -/
def weightOf (s : String) : Option ℚ := lookupKey s symptom_weights

/-- Table `_initialize_disease_patterns`: disease ↔ typical symptoms, in insertion order. -/
def disease_patterns : List (String × List String) :=
  [("infeccion_respiratoria", ["fiebre", "tos", "congestion_nasal", "dolor_garganta"]),
   ("gastroenteritis", ["nausea", "dolor_abdominal", "fatiga"]),
   ("migrana", ["dolor_cabeza", "nausea", "mareos"]),
   ("ansiedad", ["dolor_pecho", "dificultad_respirar", "mareos", "fatiga"]),
   ("diabetes", ["perdida_peso", "fatiga", "cambios_vision"]),
   ("hipertension", ["dolor_cabeza", "mareos", "dolor_pecho"]),
   ("artritis", ["dolor_articular", "dolor_muscular", "fatiga"]),
   ("enfermedad_cardiaca", ["dolor_pecho", "dificultad_respirar", "fatiga"]),
   ("enfermedad_renal", ["fatiga", "nausea", "dolor_espalda"]),
   ("enfermedad_hepatica", ["fatiga", "nausea", "dolor_abdominal", "erupcion_cutanea"]),
   ("enfermedad_autoimmune", ["fatiga", "dolor_articular", "erupcion_cutanea", "fiebre"]),
   ("cancer", ["perdida_peso", "fatiga", "dolor_abdominal", "sangrado"]),
   ("enfermedad_neurologica", ["confusion", "convulsiones", "cambios_vision", "mareos"])]

/-- A symptom-intensity mapping: keys in insertion order, `none` models Python `None`. -/
abbrev Symptoms := List (String × Option ℚ)

/-- One iteration of the accumulation loop in `calculate_symptom_score`:
`acc = (total_score, total_weight)`.  The key must be a known symptom, the
intensity must not be `None` and must be strictly positive; then the clamped
normalized intensity times the weight goes to `total_score` and the weight
to `total_weight`. -/
def scoreStep (acc : ℚ × ℚ) (e : String × Option ℚ) : ℚ × ℚ :=
  match weightOf e.1 with
  | none => acc
  | some w =>
    match e.2 with
    | none => acc
    | some i =>
      if i ≤ 0 then acc
      else (acc.1 + clamp01 (i / 10) * w, acc.2 + w)

/-- Python `calculate_symptom_score`: weighted average of clamped normalized
intensities over known, strictly-positive symptoms; `0` when nothing
contributed. -/
def calculate_symptom_score (symptoms : Symptoms) : ℚ :=
  let acc := symptoms.foldl scoreStep (0, 0)
  if acc.2 = 0 then 0 else acc.1 / acc.2

/-- One pattern symptom's contribution inside `detect_disease_patterns`:
`if symptom in symptoms and symptoms[symptom] > 0`.  A `None` intensity hits
`None > 0`, which raises a TypeError in Python; we model that as `.error`. -/
def patternEntryScore (symptoms : Symptoms) (s : String) : Except String ℚ :=
  match lookupKey s symptoms with
  | none => Except.ok 0
  | some none => Except.error "TypeError: comparison of NoneType and int"
  | some (some i) =>
    Except.ok (if 0 < i then clamp01 (i / 10) * ((weightOf s).getD (1/2)) else 0)

/-- The inner loop of `detect_disease_patterns`: accumulate the pattern's
matched contributions, propagating the first exception. -/
def sumPattern (symptoms : Symptoms) : List String → Except String ℚ
  | [] => Except.ok 0
  | s :: rest => do
    let c ← patternEntryScore symptoms s
    let r ← sumPattern symptoms rest
    pure (c + r)

/-- The outer loop of `detect_disease_patterns` over a pattern table. -/
def detectAux (symptoms : Symptoms) :
    List (String × List String) → Except String (List (String × ℚ))
  | [] => Except.ok []
  | (d, pat) :: rest => do
    let s ← sumPattern symptoms pat
    let r ← detectAux symptoms rest
    pure ((d, if 0 < pat.length then s / pat.length else 0) :: r)

/-- Python `detect_disease_patterns`: per-disease normalized match score (sum of
matched contributions divided by the pattern's length), keyed in the
table's insertion order. -/
def detect_disease_patterns (symptoms : Symptoms) : Except String (List (String × ℚ)) :=
  detectAux symptoms disease_patterns

/-- Python `max(pattern_scores.values())` guarded by `if pattern_scores else 0.0`. -/
def maxPatternScore (ps : List (String × ℚ)) : ℚ :=
  match ps.map Prod.snd with
  | [] => 0
  | h :: t => t.foldl max h

/-- Python `determine_severity`: average the overall score with the strongest
pattern score, then classify by the ascending threshold chain. -/
def determine_severity (overall : ℚ) (ps : List (String × ℚ)) : String × ℚ :=
  let adjusted := (overall + maxPatternScore ps) / 2
  let sev :=
    if adjusted < 15/100 then "NO_ENFERMO"
    else if adjusted < 30/100 then "MOLESTIAS_LEVES"
    else if adjusted < 60/100 then "ENFERMEDAD_LEVE"
    else if adjusted < 80/100 then "ENFERMEDAD_AGUDA"
    else "ENFERMEDAD_CRONICA"
  (sev, adjusted)

/-- Python `max(items, key=lambda x: x[1])`: keep the current best, replace
only on a strictly greater value, so the first maximal item wins; the
`("ninguna", 0)` default is the pre-set value used when the map is empty. -/
def pyMax (ps : List (String × ℚ)) : String × ℚ :=
  match ps with
  | [] => ("ninguna", 0)
  | h :: t => t.foldl (fun best p => if best.2 < p.2 then p else best) h

/-- Python `round(x, 3)`, modelled on ℚ: round `x * 1000` to the nearest
integer and scale back. -/
def round3 (q : ℚ) : ℚ := (round (q * 1000) : ℤ) / 1000

/-- Python `_generate_recommendations`: static advice per severity label. -/
def generate_recommendations (severity : String) : List String :=
  if severity = "NO_ENFERMO" then
    ["No hay señales de gravedad actuales",
     "Descansar adecuadamente",
     "Mantener buena hidratación (agua, líquidos claros)",
     "Observar si aparecen nuevos síntomas o si alguno empeora"]
  else if severity = "MOLESTIAS_LEVES" then
    ["Molestias leves: reposo y buena hidratación",
     "Dormir bien y evitar sobreesfuerzos",
     "Usar analgésicos comunes si es necesario y no hay contraindicaciones",
     "Consultar con un profesional si los síntomas aumentan o duran más de 48h"]
  else if severity = "ENFERMEDAD_LEVE" then
    ["Síntomas compatibles con un cuadro leve",
     "Mantener reposo y buena hidratación",
     "Monitorear temperatura y respiración",
     "Consultar a un profesional si persisten más de 48-72h o empeoran"]
  else if severity = "ENFERMEDAD_AGUDA" then
    ["CUADRO DE CUIDADO MÉDICO RECOMENDADO",
     "Buscar valoración médica en las próximas 24 horas",
     "Monitorear signos vitales (fiebre alta, dificultad respiratoria)",
     "Evitar automedicación sin indicación profesional",
     "Acudir a urgencias si hay empeoramiento rápido"]
  else if severity = "ENFERMEDAD_CRONICA" then
    ["ATENCIÓN MÉDICA URGENTE NECESARIA",
     "Buscar atención especializada inmediatamente",
     "Posible necesidad de intervención hospitalaria",
     "Seguimiento médico continuo recomendado"]
  else
    ["Monitorear evolución de síntomas",
     "Buscar orientación médica ante cualquier duda"]

/-- The success dictionary assembled by `predict_diagnosis`. -/
structure DiagnosisResult where
  diagnosis : String
  confidence : ℚ
  severity_score : ℚ
  most_likely_condition : String
  condition_confidence : ℚ
  show_condition : Bool
  symptom_score : ℚ
  pattern_scores : List (String × ℚ)
  recommendations : List String
  input_symptoms : Symptoms
deriving DecidableEq, Repr

/-- The degraded dictionary returned from the `except` block of
`predict_diagnosis`: exactly these five keys, nothing else. -/
structure ErrorResult where
  error : String
  diagnosis : String
  confidence : ℚ
  show_condition : Bool
  recommendations : List String
deriving DecidableEq, Repr

/-- The success branch of `predict_diagnosis` after validation and pattern
detection: severity, disclosure gating and field assembly. -/
def successResult (symptoms : Symptoms) (overall : ℚ) (ps : List (String × ℚ)) :
    DiagnosisResult :=
  let sv := determine_severity overall ps
  let ml := pyMax ps
  if sv.1 = "NO_ENFERMO" ∨ sv.1 = "MOLESTIAS_LEVES" then
    { diagnosis := sv.1
      confidence := round3 overall
      severity_score := round3 sv.2
      most_likely_condition := "ninguna"
      condition_confidence := round3 0
      show_condition := false
      symptom_score := round3 overall
      pattern_scores := ps.map (fun p => (p.1, round3 p.2))
      recommendations := generate_recommendations sv.1
      input_symptoms := symptoms }
  else
    { diagnosis := sv.1
      confidence := round3 overall
      severity_score := round3 sv.2
      most_likely_condition := ml.1
      condition_confidence := round3 ml.2
      show_condition := true
      symptom_score := round3 overall
      pattern_scores := ps.map (fun p => (p.1, round3 p.2))
      recommendations := generate_recommendations sv.1
      input_symptoms := symptoms }

/-- The degraded dictionary built in the `except` block for a message `e`. -/
def errorResult (e : String) : ErrorResult :=
  { error := e, diagnosis := "ERROR", confidence := 0,
    show_condition := false, recommendations := [] }

/-- Python `predict_diagnosis`: validate (at least 3 entries), score, detect
patterns, classify, gate disclosure, assemble; every raised exception is
caught and turned into the degraded dictionary. -/
def predict_diagnosis (symptoms : Symptoms) : Except ErrorResult DiagnosisResult :=
  if symptoms.length < 3 then
    Except.error (errorResult "Se requieren al menos 3 síntomas para el diagnóstico")
  else
    let overall := calculate_symptom_score symptoms
    match detect_disease_patterns symptoms with
    | Except.error e => Except.error (errorResult e)
    | Except.ok ps => Except.ok (successResult symptoms overall ps)

/-! ## Spec-side definitions (for refinement claims)

These follow the wording of the specification (§4.1, §4.2, §4.3) rather
than the control flow of the code; the claim theorems compare them with the
embedded code above. -/

/-- Spec §4.1: numerator contribution of one input entry — clamped
normalized intensity times the symptom's weight, for known symptoms with
intensity strictly greater than 0; everything else contributes 0. -/
def entryNum (e : String × Option ℚ) : ℚ :=
  match weightOf e.1, e.2 with
  | some w, some i => if 0 < i then clamp01 (i / 10) * w else 0
  | _, _ => 0

/-- Spec §4.1: denominator contribution of one input entry — the symptom's
weight, for known symptoms with intensity strictly greater than 0. -/
def entryDen (e : String × Option ℚ) : ℚ :=
  match weightOf e.1, e.2 with
  | some w, some i => if 0 < i then w else 0
  | _, _ => 0

/-- Spec §4.1: the running weighted sum over all input entries. -/
def specNum (l : Symptoms) : ℚ := (l.map entryNum).sum

/-- Spec §4.1: the running weight-sum over all input entries. -/
def specDen (l : Symptoms) : ℚ := (l.map entryDen).sum

/-! ## Helper lemmas -/

lemma scoreStep_eq (acc : ℚ × ℚ) (e : String × Option ℚ) :
    scoreStep acc e = (acc.1 + entryNum e, acc.2 + entryDen e) := by
  unfold scoreStep entryNum entryDen
  rcases weightOf e.1 with _ | w <;> rcases e.2 with _ | i <;> simp
  rcases le_or_lt i 0 with h | h
  · simp [if_pos h, if_neg (not_lt.mpr h)]
  · simp [if_neg (not_le.mpr h), if_pos h]

lemma foldl_scoreStep (l : Symptoms) : ∀ a b : ℚ,
    l.foldl scoreStep (a, b) = (a + specNum l, b + specDen l) := by
  induction l with
  | nil => intro a b; simp [specNum, specDen]
  | cons e t ih =>
    intro a b
    simp only [List.foldl_cons, scoreStep_eq, specNum, specDen, List.map_cons,
      List.sum_cons, ih, add_assoc]

lemma calculate_symptom_score_eq (symptoms : Symptoms) :
    calculate_symptom_score symptoms =
      if specDen symptoms = 0 then 0 else specNum symptoms / specDen symptoms := by
  unfold calculate_symptom_score
  rw [foldl_scoreStep symptoms 0 0]
  simp

lemma lookupKey_mem {α : Type} {s : String} {l : List (String × α)} {v : α}
    (h : lookupKey s l = some v) : (s, v) ∈ l := by
  induction l with
  | nil => simp [lookupKey] at h
  | cons e t ih =>
    rcases e with ⟨k, w⟩
    simp only [lookupKey] at h
    split at h
    · next hk =>
      subst hk
      cases h
      exact List.mem_cons_self _ _
    · exact List.mem_cons_of_mem _ (ih h)

lemma weights_bounds : ∀ p ∈ symptom_weights, 0 < p.2 ∧ p.2 ≤ 1 := by
  intro p hp
  fin_cases hp <;> norm_num

lemma weightOf_bounds {s : String} {w : ℚ} (h : weightOf s = some w) :
    0 < w ∧ w ≤ 1 :=
  weights_bounds (s, w) (lookupKey_mem h)

lemma clamp01_nonneg (x : ℚ) : 0 ≤ clamp01 x :=
  le_min (le_max_right x 0) zero_le_one

lemma clamp01_le_one (x : ℚ) : clamp01 x ≤ 1 := min_le_right _ _

lemma clamp01_mono {x y : ℚ} (h : x ≤ y) : clamp01 x ≤ clamp01 y :=
  min_le_min (max_le_max h le_rfl) le_rfl

lemma entryDen_nonneg (e : String × Option ℚ) : 0 ≤ entryDen e := by
  unfold entryDen
  rcases hw : weightOf e.1 with _ | w <;> rcases e.2 with _ | i <;> simp
  have := (weightOf_bounds hw).1
  split <;> [exact this.le; exact le_rfl]

lemma entryNum_nonneg (e : String × Option ℚ) : 0 ≤ entryNum e := by
  unfold entryNum
  rcases hw : weightOf e.1 with _ | w <;> rcases e.2 with _ | i <;> simp
  have := (weightOf_bounds hw).1
  split
  · exact mul_nonneg (clamp01_nonneg _) this.le
  · exact le_rfl

lemma entryNum_le_entryDen (e : String × Option ℚ) : entryNum e ≤ entryDen e := by
  unfold entryNum entryDen
  rcases hw : weightOf e.1 with _ | w <;> rcases e.2 with _ | i <;> simp
  have := (weightOf_bounds hw).1
  split
  · calc clamp01 (i / 10) * w ≤ 1 * w :=
        mul_le_mul_of_nonneg_right (clamp01_le_one _) this.le
      _ = w := one_mul w
  · exact le_rfl

lemma specDen_nonneg (l : Symptoms) : 0 ≤ specDen l :=
  List.sum_nonneg (by intro x hx; rcases List.mem_map.mp hx with ⟨e, _, rfl⟩
                      exact entryDen_nonneg e)

lemma specNum_nonneg (l : Symptoms) : 0 ≤ specNum l :=
  List.sum_nonneg (by intro x hx; rcases List.mem_map.mp hx with ⟨e, _, rfl⟩
                      exact entryNum_nonneg e)

lemma specNum_le_specDen (l : Symptoms) : specNum l ≤ specDen l :=
  List.sum_le_sum (fun e _ => entryNum_le_entryDen e)

lemma calculate_symptom_score_nonneg (symptoms : Symptoms) :
    0 ≤ calculate_symptom_score symptoms := by
  rw [calculate_symptom_score_eq]
  split
  · exact le_rfl
  · exact div_nonneg (specNum_nonneg _) (specDen_nonneg _)

lemma calculate_symptom_score_le_one (symptoms : Symptoms) :
    calculate_symptom_score symptoms ≤ 1 := by
  rw [calculate_symptom_score_eq]
  split
  · exact zero_le_one
  · next h =>
    exact (div_le_one (lt_of_le_of_ne (specDen_nonneg _) (Ne.symm h))).mpr
      (specNum_le_specDen _)

/-- Spec §4.2: the contribution of one pattern symptom — clamped normalized
intensity times the symptom's weight (0.5 when the symptom is missing from
the weight table) when the symptom is present with intensity > 0, else 0. -/
def specSymptomContrib (symptoms : Symptoms) (s : String) : ℚ :=
  match lookupKey s symptoms with
  | some (some i) =>
    if 0 < i then clamp01 (i / 10) * ((weightOf s).getD (1/2)) else 0
  | _ => 0

/-- Spec §4.2: one condition's normalized pattern score — the summed
contributions divided by the pattern's size, 0 for an empty pattern. -/
def specPatternScore (symptoms : Symptoms) (pat : List String) : ℚ :=
  if pat.length = 0 then 0
  else (pat.map (specSymptomContrib symptoms)).sum / pat.length

/-- An input with no `None` intensity (the declared Python input type). -/
def noNone (symptoms : Symptoms) : Prop := ∀ e ∈ symptoms, e.2.isSome

lemma patternEntryScore_ok {symptoms : Symptoms} (h : noNone symptoms) (s : String) :
    patternEntryScore symptoms s = Except.ok (specSymptomContrib symptoms s) := by
  unfold patternEntryScore specSymptomContrib
  rcases hl : lookupKey s symptoms with _ | v
  · simp
  · rcases v with _ | i
    · have := h _ (lookupKey_mem hl)
      simp at this
    · simp

lemma sumPattern_ok {symptoms : Symptoms} (h : noNone symptoms) (pat : List String) :
    sumPattern symptoms pat = Except.ok ((pat.map (specSymptomContrib symptoms)).sum) := by
  induction pat with
  | nil => simp [sumPattern]
  | cons s rest ih =>
    simp [sumPattern, patternEntryScore_ok h, ih, Bind.bind, Except.bind, pure, Except.pure]

lemma ifLength_eq (x : ℚ) (pat : List String) :
    (if 0 < pat.length then x / pat.length else 0)
      = (if pat.length = 0 then 0 else x / pat.length) := by
  rcases Nat.eq_zero_or_pos pat.length with h0 | h0
  · simp [h0]
  · simp [h0, Nat.pos_iff_ne_zero.mp h0]

lemma detectAux_ok {symptoms : Symptoms} (h : noNone symptoms)
    (tbl : List (String × List String)) :
    detectAux symptoms tbl =
      Except.ok (tbl.map (fun p => (p.1, specPatternScore symptoms p.2))) := by
  induction tbl with
  | nil => simp [detectAux]
  | cons p rest ih =>
    rcases p with ⟨d, pat⟩
    simp only [detectAux, sumPattern_ok h, ih, Bind.bind, Except.bind, List.map_cons,
      pure, Except.pure]
    simp [specPatternScore, ifLength_eq]

lemma detect_disease_patterns_ok {symptoms : Symptoms} (h : noNone symptoms) :
    detect_disease_patterns symptoms =
      Except.ok (disease_patterns.map (fun p => (p.1, specPatternScore symptoms p.2))) :=
  detectAux_ok h disease_patterns

lemma getWeight_bounds (s : String) :
    0 < (weightOf s).getD (1/2) ∧ (weightOf s).getD (1/2) ≤ 1 := by
  rcases hw : weightOf s with _ | w
  · norm_num
  · simpa using weightOf_bounds hw

lemma specSymptomContrib_bounds (symptoms : Symptoms) (s : String) :
    0 ≤ specSymptomContrib symptoms s ∧ specSymptomContrib symptoms s ≤ 1 := by
  unfold specSymptomContrib
  rcases lookupKey s symptoms with _ | v
  · norm_num
  · rcases v with _ | i
    · norm_num
    · dsimp only
      split
      · constructor
        · exact mul_nonneg (clamp01_nonneg _) (getWeight_bounds s).1.le
        · calc clamp01 (i / 10) * ((weightOf s).getD (1/2))
              ≤ 1 * ((weightOf s).getD (1/2)) :=
                mul_le_mul_of_nonneg_right (clamp01_le_one _) (getWeight_bounds s).1.le
            _ ≤ 1 := by simpa using (getWeight_bounds s).2
      · norm_num

lemma specPatternScore_bounds (symptoms : Symptoms) (pat : List String) :
    0 ≤ specPatternScore symptoms pat ∧ specPatternScore symptoms pat ≤ 1 := by
  unfold specPatternScore
  rcases Nat.eq_zero_or_pos pat.length with h0 | h0
  · simp [h0]
  · have hlen : (0:ℚ) < pat.length := by exact_mod_cast h0
    rw [if_neg (Nat.pos_iff_ne_zero.mp h0)]
    constructor
    · refine div_nonneg (List.sum_nonneg ?_) hlen.le
      intro x hx
      rcases List.mem_map.mp hx with ⟨s, _, rfl⟩
      exact (specSymptomContrib_bounds symptoms s).1
    · rw [div_le_one hlen]
      calc (pat.map (specSymptomContrib symptoms)).sum
          ≤ (pat.map (fun _ => (1:ℚ))).sum := by
            apply List.sum_le_sum
            intro s _
            exact (specSymptomContrib_bounds symptoms s).2
        _ = pat.length := by simp [List.map_const]

lemma round3_mono {a b : ℚ} (h : a ≤ b) : round3 a ≤ round3 b := by
  unfold round3
  have h1 : round (a * 1000) ≤ round (b * 1000) := by
    rw [round_eq, round_eq]
    exact Int.floor_le_floor (by linarith)
  have h2 : ((round (a * 1000) : ℤ) : ℚ) ≤ ((round (b * 1000) : ℤ) : ℚ) := by
    exact_mod_cast h1
  linarith

lemma round3_zero : round3 0 = 0 := by
  norm_num [round3]

lemma round3_one : round3 1 = 1 := by
  norm_num [round3, round_eq]

lemma round3_nonneg {q : ℚ} (h : 0 ≤ q) : 0 ≤ round3 q := by
  have := round3_mono h
  rwa [round3_zero] at this

lemma round3_le_one {q : ℚ} (h : q ≤ 1) : round3 q ≤ 1 := by
  have := round3_mono h
  rwa [round3_one] at this

lemma foldl_max_bounds {lo hi : ℚ} :
    ∀ (l : List ℚ) (a : ℚ), lo ≤ a → a ≤ hi → (∀ x ∈ l, lo ≤ x ∧ x ≤ hi) →
      lo ≤ l.foldl max a ∧ l.foldl max a ≤ hi := by
  intro l
  induction l with
  | nil => intro a h1 h2 _; exact ⟨h1, h2⟩
  | cons x t ih =>
    intro a h1 h2 hl
    simp only [List.foldl_cons]
    exact ih (max a x) (le_max_of_le_left h1)
      (max_le h2 (hl x (List.mem_cons_self x t)).2)
      (fun y hy => hl y (List.mem_cons_of_mem x hy))

lemma maxPatternScore_bounds {ps : List (String × ℚ)}
    (h : ∀ p ∈ ps, 0 ≤ p.2 ∧ p.2 ≤ 1) :
    0 ≤ maxPatternScore ps ∧ maxPatternScore ps ≤ 1 := by
  unfold maxPatternScore
  rcases ps with _ | ⟨p, t⟩
  · norm_num
  · simp only [List.map_cons]
    refine foldl_max_bounds (t.map Prod.snd) p.2 (h p (List.mem_cons_self p t)).1
      (h p (List.mem_cons_self p t)).2 ?_
    intro x hx
    rcases List.mem_map.mp hx with ⟨q, hq, rfl⟩
    exact h q (List.mem_cons_of_mem p hq)

lemma foldl_pyMax_mem :
    ∀ (t : List (String × ℚ)) (a : String × ℚ),
      t.foldl (fun best p => if best.2 < p.2 then p else best) a = a ∨
      t.foldl (fun best p => if best.2 < p.2 then p else best) a ∈ t := by
  intro t
  induction t with
  | nil => intro a; exact Or.inl rfl
  | cons x t ih =>
    intro a
    simp only [List.foldl_cons]
    rcases ih (if a.2 < x.2 then x else a) with h | h
    · rw [h]
      split
      · exact Or.inr (List.mem_cons_self x t)
      · exact Or.inl rfl
    · exact Or.inr (List.mem_cons_of_mem x h)

lemma pyMax_mem {ps : List (String × ℚ)} (h : ps ≠ []) : pyMax ps ∈ ps := by
  rcases ps with _ | ⟨p, t⟩
  · exact absurd rfl h
  · simp only [pyMax]
    rcases foldl_pyMax_mem t p with h1 | h1
    · rw [h1]; exact List.mem_cons_self p t
    · exact List.mem_cons_of_mem p h1

lemma pyMax_snd_bounds {ps : List (String × ℚ)}
    (h : ∀ p ∈ ps, 0 ≤ p.2 ∧ p.2 ≤ 1) :
    0 ≤ (pyMax ps).2 ∧ (pyMax ps).2 ≤ 1 := by
  rcases ps with _ | ⟨p, t⟩
  · norm_num [pyMax]
  · exact h _ (pyMax_mem (by simp))

lemma predict_ok_elim {symptoms : Symptoms} {r : DiagnosisResult}
    (h : predict_diagnosis symptoms = Except.ok r) :
    ¬ symptoms.length < 3 ∧
      ∃ ps, detect_disease_patterns symptoms = Except.ok ps ∧
        r = successResult symptoms (calculate_symptom_score symptoms) ps := by
  simp only [predict_diagnosis] at h
  by_cases hlen : symptoms.length < 3
  · rw [if_pos hlen] at h; cases h
  · rw [if_neg hlen] at h
    rcases hd : detect_disease_patterns symptoms with e | ps <;> rw [hd] at h
    · cases h
    · cases h
      exact ⟨hlen, ps, rfl, rfl⟩

lemma predict_error_elim {symptoms : Symptoms} {e : ErrorResult}
    (h : predict_diagnosis symptoms = Except.error e) :
    e = errorResult e.error := by
  simp only [predict_diagnosis] at h
  by_cases hlen : symptoms.length < 3
  · rw [if_pos hlen] at h
    cases h
    rfl
  · rw [if_neg hlen] at h
    rcases hd : detect_disease_patterns symptoms with msg | ps <;> rw [hd] at h
    · cases h
      rfl
    · cases h

/-- Spec §4.3: severity label from the adjusted score, ascending
lower-bound-inclusive thresholds, first match wins. -/
def severityLabelSpec (adjusted : ℚ) : String :=
  if adjusted < 15/100 then "NO_ENFERMO"
  else if adjusted < 30/100 then "MOLESTIAS_LEVES"
  else if adjusted < 60/100 then "ENFERMEDAD_LEVE"
  else if adjusted < 80/100 then "ENFERMEDAD_AGUDA"
  else "ENFERMEDAD_CRONICA"

lemma determine_severity_eq (overall : ℚ) (ps : List (String × ℚ)) :
    determine_severity overall ps =
      (severityLabelSpec ((overall + maxPatternScore ps) / 2),
       (overall + maxPatternScore ps) / 2) := rfl

lemma successResult_diagnosis (s : Symptoms) (o : ℚ) (ps : List (String × ℚ)) :
    (successResult s o ps).diagnosis = (determine_severity o ps).1 := by
  simp only [successResult]
  split <;> rfl

lemma successResult_confidence (s : Symptoms) (o : ℚ) (ps : List (String × ℚ)) :
    (successResult s o ps).confidence = round3 o := by
  simp only [successResult]
  split <;> rfl

lemma successResult_severity_score (s : Symptoms) (o : ℚ) (ps : List (String × ℚ)) :
    (successResult s o ps).severity_score = round3 (determine_severity o ps).2 := by
  simp only [successResult]
  split <;> rfl

lemma successResult_pattern_scores (s : Symptoms) (o : ℚ) (ps : List (String × ℚ)) :
    (successResult s o ps).pattern_scores = ps.map (fun p => (p.1, round3 p.2)) := by
  simp only [successResult]
  split <;> rfl

lemma successResult_input_symptoms (s : Symptoms) (o : ℚ) (ps : List (String × ℚ)) :
    (successResult s o ps).input_symptoms = s := by
  simp only [successResult]
  split <;> rfl

lemma successResult_low (s : Symptoms) (o : ℚ) (ps : List (String × ℚ))
    (h : (determine_severity o ps).1 = "NO_ENFERMO" ∨
         (determine_severity o ps).1 = "MOLESTIAS_LEVES") :
    (successResult s o ps).show_condition = false ∧
    (successResult s o ps).most_likely_condition = "ninguna" ∧
    (successResult s o ps).condition_confidence = round3 0 := by
  simp only [successResult, if_pos h]
  simp

lemma successResult_high (s : Symptoms) (o : ℚ) (ps : List (String × ℚ))
    (h : ¬ ((determine_severity o ps).1 = "NO_ENFERMO" ∨
            (determine_severity o ps).1 = "MOLESTIAS_LEVES")) :
    (successResult s o ps).show_condition = true ∧
    (successResult s o ps).most_likely_condition = (pyMax ps).1 ∧
    (successResult s o ps).condition_confidence = round3 (pyMax ps).2 := by
  simp only [successResult, if_neg h]
  simp

lemma foldl_max_le : ∀ (t : List ℚ) (a : ℚ),
    a ≤ t.foldl max a ∧ ∀ x ∈ t, x ≤ t.foldl max a := by
  intro t
  induction t with
  | nil => intro a; exact ⟨le_rfl, by simp⟩
  | cons x t ih =>
    intro a
    simp only [List.foldl_cons]
    refine ⟨le_trans (le_max_left a x) (ih (max a x)).1, ?_⟩
    intro y hy
    rcases List.mem_cons.mp hy with rfl | hy
    · exact le_trans (le_max_right a y) (ih (max a y)).1
    · exact (ih (max a x)).2 y hy

lemma foldl_max_mem : ∀ (t : List ℚ) (a : ℚ),
    t.foldl max a = a ∨ t.foldl max a ∈ t := by
  intro t
  induction t with
  | nil => intro a; exact Or.inl rfl
  | cons x t ih =>
    intro a
    simp only [List.foldl_cons]
    rcases ih (max a x) with h | h
    · rw [h]
      rcases max_choice a x with h2 | h2 <;> rw [h2]
      · exact Or.inl rfl
      · exact Or.inr (List.mem_cons_self x t)
    · exact Or.inr (List.mem_cons_of_mem x h)

lemma maxPatternScore_is_max (ps : List (String × ℚ)) :
    (∀ p ∈ ps, p.2 ≤ maxPatternScore ps) ∧
    (ps = [] → maxPatternScore ps = 0) ∧
    (ps ≠ [] → maxPatternScore ps ∈ ps.map Prod.snd) := by
  rcases ps with _ | ⟨p, t⟩
  · exact ⟨by simp, fun _ => rfl, fun h => absurd rfl h⟩
  · refine ⟨?_, by simp, fun _ => ?_⟩
    · intro q hq
      show q.2 ≤ (t.map Prod.snd).foldl max p.2
      rcases List.mem_cons.mp hq with rfl | hq
      · exact (foldl_max_le (t.map Prod.snd) q.2).1
      · exact (foldl_max_le (t.map Prod.snd) p.2).2 q.2
          (List.mem_map.mpr ⟨q, hq, rfl⟩)
    · show (t.map Prod.snd).foldl max p.2 ∈ (p :: t).map Prod.snd
      rcases foldl_max_mem (t.map Prod.snd) p.2 with h | h
      · rw [h]; simp
      · simp only [List.map_cons]
        exact List.mem_cons_of_mem _ h

lemma detectAux_keys {symptoms : Symptoms} :
    ∀ {tbl : List (String × List String)} {ps : List (String × ℚ)},
      detectAux symptoms tbl = Except.ok ps → ps.map Prod.fst = tbl.map Prod.fst := by
  intro tbl
  induction tbl with
  | nil =>
    intro ps h
    simp only [detectAux] at h
    cases h
    rfl
  | cons p rest ih =>
    intro ps h
    rcases p with ⟨d, pat⟩
    simp only [detectAux, Bind.bind, Except.bind] at h
    rcases hs : sumPattern symptoms pat with e | sv <;> rw [hs] at h
    · cases h
    · rcases hr : detectAux symptoms rest with e2 | rv <;> rw [hr] at h
      · cases h
      · simp only [pure, Except.pure] at h
        cases h
        simp [ih hr]

/-! ## Concrete test inputs (spec §8 scenarios) and their full results -/

/-- Scenario A: the module's own `__main__` example input. -/
def scenarioA : Symptoms :=
  [("dolor_pecho", some 10), ("dificultad_respirar", some 10), ("tos", some 10),
   ("fatiga", some 0), ("fiebre", some 0), ("mareos", some 0)]

/-- The full result of `predict_diagnosis` on `scenarioA`. -/
def scenarioAResult : DiagnosisResult :=
  { diagnosis := "ENFERMEDAD_CRONICA"
    confidence := 1
    severity_score := 101/125
    most_likely_condition := "enfermedad_cardiaca"
    condition_confidence := 617/1000
    show_condition := true
    symptom_score := 1
    pattern_scores := [("infeccion_respiratoria", 3/20), ("gastroenteritis", 0),
      ("migrana", 0), ("ansiedad", 463/1000), ("diabetes", 0), ("hipertension", 3/10),
      ("artritis", 0), ("enfermedad_cardiaca", 617/1000), ("enfermedad_renal", 0),
      ("enfermedad_hepatica", 0), ("enfermedad_autoimmune", 0), ("cancer", 0),
      ("enfermedad_neurologica", 0)]
    recommendations := ["ATENCIÓN MÉDICA URGENTE NECESARIA",
      "Buscar atención especializada inmediatamente",
      "Posible necesidad de intervención hospitalaria",
      "Seguimiento médico continuo recomendado"]
    input_symptoms := scenarioA }

/-- Scenario B: three low-intensity symptoms. -/
def scenarioB : Symptoms :=
  [("fiebre", some 1), ("dolor_cabeza", some 1), ("nausea", some 1)]

/-- The (unrounded) pattern-score map on `scenarioB`. -/
def scenarioBPatterns : List (String × ℚ) :=
  [("infeccion_respiratoria", 1/50), ("gastroenteritis", 1/60), ("migrana", 11/300),
   ("ansiedad", 0), ("diabetes", 0), ("hipertension", 1/50), ("artritis", 0),
   ("enfermedad_cardiaca", 0), ("enfermedad_renal", 1/60), ("enfermedad_hepatica", 1/80),
   ("enfermedad_autoimmune", 1/50), ("cancer", 0), ("enfermedad_neurologica", 0)]

/-- The full result of `predict_diagnosis` on `scenarioB`. -/
def scenarioBResult : DiagnosisResult :=
  { diagnosis := "NO_ENFERMO"
    confidence := 1/10
    severity_score := 17/250
    most_likely_condition := "ninguna"
    condition_confidence := 0
    show_condition := false
    symptom_score := 1/10
    pattern_scores := [("infeccion_respiratoria", 1/50), ("gastroenteritis", 17/1000),
      ("migrana", 37/1000), ("ansiedad", 0), ("diabetes", 0), ("hipertension", 1/50),
      ("artritis", 0), ("enfermedad_cardiaca", 0), ("enfermedad_renal", 17/1000),
      ("enfermedad_hepatica", 13/1000), ("enfermedad_autoimmune", 1/50), ("cancer", 0),
      ("enfermedad_neurologica", 0)]
    recommendations := ["No hay señales de gravedad actuales", "Descansar adecuadamente",
      "Mantener buena hidratación (agua, líquidos claros)",
      "Observar si aparecen nuevos síntomas o si alguno empeora"]
    input_symptoms := scenarioB }

/-! ## Claim theorems -/

/-- C1: for every input mapping, the overall symptom score equals the
weighted average over entries whose key is in the symptom-weight table and
whose intensity is strictly greater than 0 — each contributes
`clamp01(intensity/10) * weight` to the numerator and `weight` to the
denominator; entries with intensity ≤ 0 or null contribute to neither; the
result is exactly 0 when the accumulated weight is 0. -/
theorem C1_symptom_score_weighted_average (symptoms : Symptoms) :
    calculate_symptom_score symptoms =
      if specDen symptoms = 0 then 0
      else specNum symptoms / specDen symptoms :=
  calculate_symptom_score_eq symptoms

/-- C2: for every input mapping with numeric intensities, disease-pattern
matching returns one entry per condition of the table, in table order, each
scored as the sum of matched contributions (weight defaulting to 0.5 for
unknown symptoms) divided by the size of the condition's pattern (0 for an
empty pattern). -/
theorem C2_pattern_scores (symptoms : Symptoms) (h : noNone symptoms) :
    detect_disease_patterns symptoms =
      Except.ok (disease_patterns.map (fun p => (p.1, specPatternScore symptoms p.2))) :=
  detect_disease_patterns_ok h

/-- Witness for C2 at scenario B. -/
theorem C2_pattern_scores_witness :
    noNone scenarioB ∧
    detect_disease_patterns scenarioB =
      Except.ok (disease_patterns.map (fun p => (p.1, specPatternScore scenarioB p.2))) := by
  have hn : noNone scenarioB := by simp [noNone, scenarioB]
  exact ⟨hn, C2_pattern_scores scenarioB hn⟩

/-- C5: an input that is empty or has fewer than 3 entries yields, without
any numeric computation, the degraded result with diagnosis "ERROR",
confidence 0, empty recommendations, disclosure false and an error message;
no exception escapes. -/
theorem C5_validation_error (symptoms : Symptoms) (h : symptoms.length < 3) :
    predict_diagnosis symptoms =
      Except.error { error := "Se requieren al menos 3 síntomas para el diagnóstico",
                     diagnosis := "ERROR", confidence := 0, show_condition := false,
                     recommendations := [] } := by
  simp only [predict_diagnosis, if_pos h]
  rfl

/-- Witness for C5 on a 2-entry input. -/
theorem C5_validation_error_witness :
    ([("fiebre", some (5:ℚ)), ("tos", some 5)] : Symptoms).length < 3 ∧
    predict_diagnosis [("fiebre", some (5:ℚ)), ("tos", some 5)] =
      Except.error { error := "Se requieren al menos 3 síntomas para el diagnóstico",
                     diagnosis := "ERROR", confidence := 0, show_condition := false,
                     recommendations := [] } :=
  ⟨by decide, C5_validation_error _ (by decide)⟩

/-- C8: on the success path the result's `input_symptoms` field is the very
mapping that was passed in, unchanged. -/
theorem C8_input_echo (symptoms : Symptoms) (r : DiagnosisResult)
    (h : predict_diagnosis symptoms = Except.ok r) :
    r.input_symptoms = symptoms := by
  obtain ⟨-, ps, -, rfl⟩ := predict_ok_elim h
  exact successResult_input_symptoms _ _ _

/-- Witness for C8 at scenario A (raw 0 intensities and all, echoed verbatim). -/
theorem C8_input_echo_witness :
    predict_diagnosis scenarioA = Except.ok scenarioAResult ∧
    scenarioAResult.input_symptoms = scenarioA := by
  have h : predict_diagnosis scenarioA = Except.ok scenarioAResult := by
    norm_num +decide [predict_diagnosis, successResult, errorResult, determine_severity,
      maxPatternScore, pyMax, round3, round_eq, generate_recommendations,
      calculate_symptom_score, scoreStep, detect_disease_patterns, detectAux, sumPattern,
      patternEntryScore, weightOf, symptom_weights, disease_patterns, clamp01, lookupKey,
      scenarioA, scenarioAResult, min_def, max_def, Bind.bind, Except.bind, pure,
      Except.pure]
  exact ⟨h, C8_input_echo scenarioA scenarioAResult h⟩

/-- C9: every degraded result consists of exactly the five fields of
`ErrorResult`; besides the free-text message, diagnosis is "ERROR",
confidence 0, disclosure false, recommendations empty. -/
theorem C9_error_shape (symptoms : Symptoms) (e : ErrorResult)
    (h : predict_diagnosis symptoms = Except.error e) :
    e = { error := e.error, diagnosis := "ERROR", confidence := 0,
          show_condition := false, recommendations := [] } :=
  predict_error_elim h

/-- Witness for C9 on a 2-entry input. -/
theorem C9_error_shape_witness :
    predict_diagnosis [("a", some (1:ℚ)), ("b", some 2)] =
      Except.error (errorResult "Se requieren al menos 3 síntomas para el diagnóstico") ∧
    errorResult "Se requieren al menos 3 síntomas para el diagnóstico" =
      { error := "Se requieren al menos 3 síntomas para el diagnóstico",
        diagnosis := "ERROR", confidence := 0, show_condition := false,
        recommendations := [] } := by
  have h : predict_diagnosis [("a", some (1:ℚ)), ("b", some 2)] =
      Except.error (errorResult "Se requieren al menos 3 síntomas para el diagnóstico") := by
    simp only [predict_diagnosis]
    rw [if_pos (by decide)]
  exact ⟨h, C9_error_shape _ _ h⟩

/-- C3: severity is chosen from the unrounded adjusted score
`(overall + max_pattern_score)/2` by the ascending lower-bound-inclusive
thresholds, where `max_pattern_score` is the maximum value of the pattern
map (0 when the map is empty); the reported `severity_score` is that
adjusted score rounded to 3 decimal digits. -/
theorem C3_severity_thresholds (symptoms : Symptoms) (ps : List (String × ℚ))
    (r : DiagnosisResult)
    (hd : detect_disease_patterns symptoms = Except.ok ps)
    (hr : predict_diagnosis symptoms = Except.ok r) :
    determine_severity (calculate_symptom_score symptoms) ps =
      (severityLabelSpec ((calculate_symptom_score symptoms + maxPatternScore ps) / 2),
       (calculate_symptom_score symptoms + maxPatternScore ps) / 2) ∧
    r.diagnosis =
      severityLabelSpec ((calculate_symptom_score symptoms + maxPatternScore ps) / 2) ∧
    r.severity_score =
      round3 ((calculate_symptom_score symptoms + maxPatternScore ps) / 2) ∧
    (∀ p ∈ ps, p.2 ≤ maxPatternScore ps) ∧
    (ps = [] → maxPatternScore ps = 0) ∧
    (ps ≠ [] → maxPatternScore ps ∈ ps.map Prod.snd) := by
  obtain ⟨-, ps', hd', hr'⟩ := predict_ok_elim hr
  have hps : ps' = ps := by
    have := hd.symm.trans hd'
    cases this
    rfl
  rw [hps] at hr'
  subst hr'
  refine ⟨determine_severity_eq _ _, ?_, ?_, (maxPatternScore_is_max ps).1,
    (maxPatternScore_is_max ps).2.1, (maxPatternScore_is_max ps).2.2⟩
  · rw [successResult_diagnosis, determine_severity_eq]
  · rw [successResult_severity_score, determine_severity_eq]

/-- Witness for C3 at scenario B. -/
theorem C3_severity_thresholds_witness :
    detect_disease_patterns scenarioB = Except.ok scenarioBPatterns ∧
    predict_diagnosis scenarioB = Except.ok scenarioBResult ∧
    scenarioBResult.diagnosis =
      severityLabelSpec ((calculate_symptom_score scenarioB +
        maxPatternScore scenarioBPatterns) / 2) ∧
    scenarioBResult.severity_score =
      round3 ((calculate_symptom_score scenarioB +
        maxPatternScore scenarioBPatterns) / 2) := by
  have hd : detect_disease_patterns scenarioB = Except.ok scenarioBPatterns := by
    norm_num +decide [detect_disease_patterns, detectAux, sumPattern, patternEntryScore,
      weightOf, symptom_weights, disease_patterns, clamp01, lookupKey, scenarioB,
      scenarioBPatterns, min_def, max_def, Bind.bind, Except.bind, pure, Except.pure]
  have hr : predict_diagnosis scenarioB = Except.ok scenarioBResult := by
    norm_num +decide [predict_diagnosis, successResult, errorResult, determine_severity,
      maxPatternScore, pyMax, round3, round_eq, generate_recommendations,
      calculate_symptom_score, scoreStep, detect_disease_patterns, detectAux, sumPattern,
      patternEntryScore, weightOf, symptom_weights, disease_patterns, clamp01, lookupKey,
      scenarioB, scenarioBResult, min_def, max_def, Bind.bind, Except.bind, pure,
      Except.pure]
  have h := C3_severity_thresholds scenarioB scenarioBPatterns scenarioBResult hd hr
  exact ⟨hd, hr, h.2.1, h.2.2.1⟩

/-- C4: on the success path, a NO_ENFERMO or MOLESTIAS_LEVES diagnosis
forces `show_condition = false`, the "ninguna" sentinel and condition
confidence 0; any other label keeps `show_condition = true` together with
the top-scoring condition and its (rounded) score. -/
theorem C4_disclosure_gate (symptoms : Symptoms) (r : DiagnosisResult)
    (h : predict_diagnosis symptoms = Except.ok r) :
    ((r.diagnosis = "NO_ENFERMO" ∨ r.diagnosis = "MOLESTIAS_LEVES") →
      r.show_condition = false ∧ r.most_likely_condition = "ninguna" ∧
      r.condition_confidence = 0) ∧
    (¬ (r.diagnosis = "NO_ENFERMO" ∨ r.diagnosis = "MOLESTIAS_LEVES") →
      r.show_condition = true ∧
      ∃ ps, detect_disease_patterns symptoms = Except.ok ps ∧
        r.most_likely_condition = (pyMax ps).1 ∧
        r.condition_confidence = round3 (pyMax ps).2) := by
  obtain ⟨-, ps, hd, rfl⟩ := predict_ok_elim h
  rw [successResult_diagnosis]
  constructor
  · intro hlab
    have h1 := successResult_low symptoms (calculate_symptom_score symptoms) ps hlab
    rw [round3_zero] at h1
    exact h1
  · intro hlab
    have h1 := successResult_high symptoms (calculate_symptom_score symptoms) ps hlab
    exact ⟨h1.1, ps, hd, h1.2.1, h1.2.2⟩

/-- Witness for C4 at scenario B (a NO_ENFERMO case with nonzero pattern
scores that are nevertheless suppressed). -/
theorem C4_disclosure_gate_witness :
    predict_diagnosis scenarioB = Except.ok scenarioBResult ∧
    ((scenarioBResult.diagnosis = "NO_ENFERMO" ∨
      scenarioBResult.diagnosis = "MOLESTIAS_LEVES") →
      scenarioBResult.show_condition = false ∧
      scenarioBResult.most_likely_condition = "ninguna" ∧
      scenarioBResult.condition_confidence = 0) ∧
    scenarioBResult.diagnosis = "NO_ENFERMO" ∧
    scenarioBResult.show_condition = false ∧
    scenarioBResult.most_likely_condition = "ninguna" ∧
    scenarioBResult.condition_confidence = 0 := by
  have hr : predict_diagnosis scenarioB = Except.ok scenarioBResult := by
    norm_num +decide [predict_diagnosis, successResult, errorResult, determine_severity,
      maxPatternScore, pyMax, round3, round_eq, generate_recommendations,
      calculate_symptom_score, scoreStep, detect_disease_patterns, detectAux, sumPattern,
      patternEntryScore, weightOf, symptom_weights, disease_patterns, clamp01, lookupKey,
      scenarioB, scenarioBResult, min_def, max_def, Bind.bind, Except.bind, pure,
      Except.pure]
  have h := (C4_disclosure_gate scenarioB scenarioBResult hr).1
  have hdiag : scenarioBResult.diagnosis = "NO_ENFERMO" := rfl
  have h2 := h (Or.inl hdiag)
  exact ⟨hr, h, hdiag, h2.1, h2.2.1, h2.2.2⟩

lemma patternEntryScore_ok_bounds {symptoms : Symptoms} {s : String} {c : ℚ}
    (h : patternEntryScore symptoms s = Except.ok c) : 0 ≤ c ∧ c ≤ 1 := by
  unfold patternEntryScore at h
  rcases hl : lookupKey s symptoms with _ | v <;> rw [hl] at h
  · cases h
    norm_num
  · rcases v with _ | i
    · cases h
    · simp only [Except.ok.injEq] at h
      subst h
      split
      · constructor
        · exact mul_nonneg (clamp01_nonneg _) (getWeight_bounds s).1.le
        · calc clamp01 (i / 10) * ((weightOf s).getD (1/2))
              ≤ 1 * ((weightOf s).getD (1/2)) :=
                mul_le_mul_of_nonneg_right (clamp01_le_one _) (getWeight_bounds s).1.le
            _ ≤ 1 := by simpa using (getWeight_bounds s).2
      · norm_num

lemma sumPattern_ok_bounds {symptoms : Symptoms} :
    ∀ {pat : List String} {sv : ℚ}, sumPattern symptoms pat = Except.ok sv →
      0 ≤ sv ∧ sv ≤ pat.length := by
  intro pat
  induction pat with
  | nil =>
    intro sv h
    cases h
    norm_num
  | cons s rest ih =>
    intro sv h
    simp only [sumPattern, Bind.bind, Except.bind] at h
    rcases hc : patternEntryScore symptoms s with e | c <;> rw [hc] at h
    · cases h
    · rcases hr : sumPattern symptoms rest with e | rv <;> rw [hr] at h
      · cases h
      · simp only [pure, Except.pure, Except.ok.injEq] at h
        subst h
        have h1 := patternEntryScore_ok_bounds hc
        have h2 := ih hr
        constructor
        · linarith [h1.1, h2.1]
        · have : (rest.length : ℚ) + 1 = ((s :: rest).length : ℚ) := by
            simp [Nat.cast_add]
          linarith [h1.2, h2.2]

lemma detectAux_ok_bounds {symptoms : Symptoms} :
    ∀ {tbl : List (String × List String)} {ps : List (String × ℚ)},
      detectAux symptoms tbl = Except.ok ps → ∀ p ∈ ps, 0 ≤ p.2 ∧ p.2 ≤ 1 := by
  intro tbl
  induction tbl with
  | nil =>
    intro ps h
    cases h
    simp
  | cons q rest ih =>
    intro ps h
    rcases q with ⟨d, pat⟩
    simp only [detectAux, Bind.bind, Except.bind] at h
    rcases hs : sumPattern symptoms pat with e | sv <;> rw [hs] at h
    · cases h
    · rcases hr : detectAux symptoms rest with e2 | rv <;> rw [hr] at h
      · cases h
      · simp only [pure, Except.pure, Except.ok.injEq] at h
        subst h
        intro p hp
        rcases List.mem_cons.mp hp with rfl | hp
        · dsimp only
          split
          · next hlen =>
            have hb := sumPattern_ok_bounds hs
            have hlenq : (0:ℚ) < pat.length := by exact_mod_cast hlen
            constructor
            · exact div_nonneg hb.1 hlenq.le
            · rw [div_le_one hlenq]
              exact hb.2
          · norm_num
        · exact ih hr p hp

/-- C6: on the success path, `confidence`, `severity_score` and
`condition_confidence` all lie in [0,1], and so does every value of the
reported `pattern_scores` map. -/
theorem C6_score_bounds (symptoms : Symptoms) (r : DiagnosisResult)
    (h : predict_diagnosis symptoms = Except.ok r) :
    (0 ≤ r.confidence ∧ r.confidence ≤ 1) ∧
    (0 ≤ r.severity_score ∧ r.severity_score ≤ 1) ∧
    (0 ≤ r.condition_confidence ∧ r.condition_confidence ≤ 1) ∧
    (∀ p ∈ r.pattern_scores, 0 ≤ p.2 ∧ p.2 ≤ 1) := by
  obtain ⟨-, ps, hd, rfl⟩ := predict_ok_elim h
  have hps : ∀ p ∈ ps, 0 ≤ p.2 ∧ p.2 ≤ 1 := detectAux_ok_bounds hd
  have ho1 := calculate_symptom_score_nonneg symptoms
  have ho2 := calculate_symptom_score_le_one symptoms
  have hmax := maxPatternScore_bounds hps
  refine ⟨?_, ?_, ?_, ?_⟩
  · rw [successResult_confidence]
    exact ⟨round3_nonneg ho1, round3_le_one ho2⟩
  · rw [successResult_severity_score, determine_severity_eq]
    dsimp only
    constructor
    · exact round3_nonneg (by linarith [hmax.1])
    · exact round3_le_one (by linarith [hmax.2])
  · by_cases hlab :
      (determine_severity (calculate_symptom_score symptoms) ps).1 = "NO_ENFERMO" ∨
      (determine_severity (calculate_symptom_score symptoms) ps).1 = "MOLESTIAS_LEVES"
    · rw [(successResult_low symptoms _ ps hlab).2.2, round3_zero]
      norm_num
    · rw [(successResult_high symptoms _ ps hlab).2.2]
      have hb := pyMax_snd_bounds hps
      exact ⟨round3_nonneg hb.1, round3_le_one hb.2⟩
  · rw [successResult_pattern_scores]
    intro p hp
    rcases List.mem_map.mp hp with ⟨q, hq, rfl⟩
    exact ⟨round3_nonneg (hps q hq).1, round3_le_one (hps q hq).2⟩

/-- Witness for C6 at scenario A. -/
theorem C6_score_bounds_witness :
    predict_diagnosis scenarioA = Except.ok scenarioAResult ∧
    (0 ≤ scenarioAResult.confidence ∧ scenarioAResult.confidence ≤ 1) ∧
    (0 ≤ scenarioAResult.severity_score ∧ scenarioAResult.severity_score ≤ 1) ∧
    (0 ≤ scenarioAResult.condition_confidence ∧
      scenarioAResult.condition_confidence ≤ 1) ∧
    (∀ p ∈ scenarioAResult.pattern_scores, 0 ≤ p.2 ∧ p.2 ≤ 1) := by
  have h : predict_diagnosis scenarioA = Except.ok scenarioAResult := by
    norm_num +decide [predict_diagnosis, successResult, errorResult, determine_severity,
      maxPatternScore, pyMax, round3, round_eq, generate_recommendations,
      calculate_symptom_score, scoreStep, detect_disease_patterns, detectAux, sumPattern,
      patternEntryScore, weightOf, symptom_weights, disease_patterns, clamp01, lookupKey,
      scenarioA, scenarioAResult, min_def, max_def, Bind.bind, Except.bind, pure,
      Except.pure]
  exact ⟨h, C6_score_bounds scenarioA scenarioAResult h⟩

/-- Replace the intensity stored at key `k` (every entry with that key),
holding all other entries fixed. -/
def setIntensity (symptoms : Symptoms) (k : String) (v : ℚ) : Symptoms :=
  symptoms.map (fun e => if e.1 = k then (e.1, some v) else e)

/-- The `confidence` field of either branch of the engine's result. -/
def resultConfidence : Except ErrorResult DiagnosisResult → ℚ
  | Except.ok r => r.confidence
  | Except.error e => e.confidence

lemma entryDen_some_pos {s : String} {a b : ℚ} (ha : 0 < a) (hb : 0 < b) :
    entryDen (s, some a) = entryDen (s, some b) := by
  unfold entryDen
  rcases hw : weightOf s with _ | w <;> simp [ha, hb]

lemma entryNum_some_mono {s : String} {a b : ℚ} (ha : 0 < a) (hab : a ≤ b) :
    entryNum (s, some a) ≤ entryNum (s, some b) := by
  unfold entryNum
  have hb : 0 < b := lt_of_lt_of_le ha hab
  rcases hw : weightOf s with _ | w <;> simp [ha, hb]
  exact mul_le_mul_of_nonneg_right (clamp01_mono (by linarith))
    (weightOf_bounds hw).1.le

lemma specDen_setIntensity {a b : ℚ} (ha : 0 < a) (hb : 0 < b)
    (symptoms : Symptoms) (k : String) :
    specDen (setIntensity symptoms k a) = specDen (setIntensity symptoms k b) := by
  unfold specDen setIntensity
  rw [List.map_map, List.map_map]
  congr 1
  apply List.map_congr_left
  intro e _
  dsimp only [Function.comp]
  by_cases h : e.1 = k
  · rw [if_pos h, if_pos h]
    exact entryDen_some_pos ha hb
  · rw [if_neg h, if_neg h]

lemma specNum_setIntensity_mono {a b : ℚ} (ha : 0 < a) (hab : a ≤ b)
    (symptoms : Symptoms) (k : String) :
    specNum (setIntensity symptoms k a) ≤ specNum (setIntensity symptoms k b) := by
  unfold specNum setIntensity
  rw [List.map_map, List.map_map]
  apply List.sum_le_sum
  intro e _
  dsimp only [Function.comp]
  by_cases h : e.1 = k
  · rw [if_pos h, if_pos h]
    exact entryNum_some_mono ha hab
  · rw [if_neg h, if_neg h]

lemma calculate_setIntensity_mono (symptoms : Symptoms) (k : String) {a b : ℚ}
    (ha : 0 < a) (hab : a ≤ b) :
    calculate_symptom_score (setIntensity symptoms k a) ≤
      calculate_symptom_score (setIntensity symptoms k b) := by
  have hb : 0 < b := lt_of_lt_of_le ha hab
  rw [calculate_symptom_score_eq, calculate_symptom_score_eq,
    specDen_setIntensity ha hb symptoms k]
  split
  · exact le_rfl
  · next h =>
    have hpos : 0 < specDen (setIntensity symptoms k b) :=
      lt_of_le_of_ne (specDen_nonneg _) (Ne.symm h)
    exact (div_le_div_iff_of_pos_right hpos).mpr
      (specNum_setIntensity_mono ha hab symptoms k)

lemma noNone_setIntensity {symptoms : Symptoms} (h : noNone symptoms)
    (k : String) (v : ℚ) : noNone (setIntensity symptoms k v) := by
  intro e he
  rcases List.mem_map.mp he with ⟨e0, he0, rfl⟩
  by_cases hk : e0.1 = k
  · simp [hk]
  · simpa [hk] using h e0 he0

lemma setIntensity_length (symptoms : Symptoms) (k : String) (v : ℚ) :
    (setIntensity symptoms k v).length = symptoms.length :=
  List.length_map _ _

/-- C7 counterexample: raising the present key "mareos" from intensity 0 to
intensity 1 (0 ≤ 1) strictly lowers the reported confidence, because a
newly-contributing low-intensity symptom drags the weighted average down. -/
theorem C7_counterexample :
    ((0:ℚ) ≤ 1) ∧
    "mareos" ∈ (([("fiebre", some 10), ("tos", some 10), ("mareos", some 5)] :
      Symptoms).map Prod.fst) ∧
    ¬ (resultConfidence (predict_diagnosis
          (setIntensity [("fiebre", some 10), ("tos", some 10), ("mareos", some 5)]
            "mareos" 0)) ≤
       resultConfidence (predict_diagnosis
          (setIntensity [("fiebre", some 10), ("tos", some 10), ("mareos", some 5)]
            "mareos" 1))) := by
  refine ⟨by norm_num, by simp, ?_⟩
  norm_num +decide [predict_diagnosis, successResult, errorResult, determine_severity,
    maxPatternScore, pyMax, round3, round_eq, generate_recommendations,
    calculate_symptom_score, scoreStep, detect_disease_patterns, detectAux, sumPattern,
    patternEntryScore, weightOf, symptom_weights, disease_patterns, clamp01, lookupKey,
    setIntensity, resultConfidence, min_def, max_def, Bind.bind, Except.bind, pure,
    Except.pure]

/-- C7 (amended): for a numeric input mapping, any key `k` and intensities
`0 < a ≤ b`, replacing the intensity at `k` by `b` yields a confidence at
least the one obtained with `a` — monotonicity holds as long as the lower
intensity is itself strictly positive (the unamended claim fails when the
intensity crosses from ≤ 0 to > 0). -/
theorem C7_confidence_monotone (symptoms : Symptoms) (k : String) {a b : ℚ}
    (hn : noNone symptoms) (ha : 0 < a) (hab : a ≤ b) :
    resultConfidence (predict_diagnosis (setIntensity symptoms k a)) ≤
      resultConfidence (predict_diagnosis (setIntensity symptoms k b)) := by
  by_cases hlen : symptoms.length < 3
  · have l1 : (setIntensity symptoms k a).length < 3 := by
      rwa [setIntensity_length]
    have l2 : (setIntensity symptoms k b).length < 3 := by
      rwa [setIntensity_length]
    simp only [predict_diagnosis, if_pos l1, if_pos l2, resultConfidence, errorResult]
    exact le_rfl
  · have l1 : ¬ (setIntensity symptoms k a).length < 3 := by
      rwa [setIntensity_length]
    have l2 : ¬ (setIntensity symptoms k b).length < 3 := by
      rwa [setIntensity_length]
    simp only [predict_diagnosis, if_neg l1, if_neg l2,
      detect_disease_patterns_ok (noNone_setIntensity hn k a),
      detect_disease_patterns_ok (noNone_setIntensity hn k b),
      resultConfidence, successResult_confidence]
    exact round3_mono (calculate_setIntensity_mono symptoms k ha hab)

/-- Witness for the amended C7: raising "fiebre" from 2 to 5 in a numeric
3-entry input. -/
theorem C7_confidence_monotone_witness :
    noNone scenarioB ∧ ((0:ℚ) < 2) ∧ ((2:ℚ) ≤ 5) ∧
    resultConfidence (predict_diagnosis (setIntensity scenarioB "fiebre" 2)) ≤
      resultConfidence (predict_diagnosis (setIntensity scenarioB "fiebre" 5)) := by
  have hn : noNone scenarioB := by simp [noNone, scenarioB]
  exact ⟨hn, by norm_num, by norm_num,
    C7_confidence_monotone scenarioB "fiebre" hn (by norm_num) (by norm_num)⟩

lemma foldl_pyMax_spec :
    ∀ (t : List (String × ℚ)) (a : String × ℚ),
      (t.foldl (fun best p => if best.2 < p.2 then p else best) a = a ∧
        ∀ p ∈ t, p.2 ≤ a.2) ∨
      (∃ i, ∃ hi : i < t.length,
        t.foldl (fun best p => if best.2 < p.2 then p else best) a = t.get ⟨i, hi⟩ ∧
        a.2 < (t.get ⟨i, hi⟩).2 ∧
        (∀ p ∈ t, p.2 ≤ (t.get ⟨i, hi⟩).2) ∧
        (∀ j (hj : j < t.length), j < i → (t.get ⟨j, hj⟩).2 < (t.get ⟨i, hi⟩).2)) := by
  intro t
  induction t with
  | nil => intro a; exact Or.inl ⟨rfl, by simp⟩
  | cons x t ih =>
    intro a
    simp only [List.foldl_cons]
    by_cases hax : a.2 < x.2
    · rw [if_pos hax]
      rcases ih x with ⟨heq, hle⟩ | ⟨i, hi, heq, hlt, hle, hstr⟩
      · refine Or.inr ⟨0, Nat.succ_pos _, ?_, ?_, ?_, ?_⟩
        · simpa using heq
        · simpa using hax
        · intro p hp
          rcases List.mem_cons.mp hp with rfl | hp
          · simp
          · simpa using hle p hp
        · intro j hj hj0
          exact absurd hj0 (Nat.not_lt_zero j)
      · refine Or.inr ⟨i + 1, Nat.succ_lt_succ hi, ?_, ?_, ?_, ?_⟩
        · simpa using heq
        · simpa using lt_trans hax hlt
        · intro p hp
          rcases List.mem_cons.mp hp with rfl | hp
          · simpa using le_of_lt hlt
          · simpa using hle p hp
        · intro j hj hji
          cases j with
          | zero => simpa using hlt
          | succ j =>
            simpa using hstr j (Nat.lt_of_succ_lt_succ hj) (Nat.lt_of_succ_lt_succ hji)
    · rw [if_neg hax]
      have hxa : x.2 ≤ a.2 := not_lt.mp hax
      rcases ih a with ⟨heq, hle⟩ | ⟨i, hi, heq, hlt, hle, hstr⟩
      · refine Or.inl ⟨heq, ?_⟩
        intro p hp
        rcases List.mem_cons.mp hp with rfl | hp
        · exact hxa
        · exact hle p hp
      · refine Or.inr ⟨i + 1, Nat.succ_lt_succ hi, ?_, ?_, ?_, ?_⟩
        · simpa using heq
        · simpa using hlt
        · intro p hp
          rcases List.mem_cons.mp hp with rfl | hp
          · simpa using le_trans hxa (le_of_lt hlt)
          · simpa using hle p hp
        · intro j hj hji
          cases j with
          | zero => simpa using lt_of_le_of_lt hxa hlt
          | succ j =>
            simpa using hstr j (Nat.lt_of_succ_lt_succ hj) (Nat.lt_of_succ_lt_succ hji)

/-- C10: the pattern-score map lists exactly the table's conditions in the
table's fixed insertion order (first `infeccion_respiratoria`, last
`enfermedad_neurologica`), and condition selection picks the earliest entry
attaining the maximum score: `pyMax` returns an entry at an index `i` whose
score dominates the whole map while every entry strictly before `i` scores
strictly less.  Selection is a pure function of the map, hence
deterministic. -/
theorem C10_condition_tie_break (symptoms : Symptoms) (ps : List (String × ℚ))
    (hd : detect_disease_patterns symptoms = Except.ok ps) (hne : ps ≠ []) :
    ps.map Prod.fst = disease_patterns.map Prod.fst ∧
    (disease_patterns.map Prod.fst).head? = some "infeccion_respiratoria" ∧
    (disease_patterns.map Prod.fst).getLast? = some "enfermedad_neurologica" ∧
    ∃ i, ∃ hi : i < ps.length, pyMax ps = ps.get ⟨i, hi⟩ ∧
      (∀ p ∈ ps, p.2 ≤ (ps.get ⟨i, hi⟩).2) ∧
      (∀ j (hj : j < ps.length), j < i → (ps.get ⟨j, hj⟩).2 < (ps.get ⟨i, hi⟩).2) := by
  refine ⟨detectAux_keys hd, rfl, rfl, ?_⟩
  rcases ps with _ | ⟨x, t⟩
  · exact absurd rfl hne
  · simp only [pyMax]
    rcases foldl_pyMax_spec t x with ⟨heq, hle⟩ | ⟨i, hi, heq, hlt, hle, hstr⟩
    · refine ⟨0, Nat.succ_pos _, by simpa using heq, ?_, ?_⟩
      · intro p hp
        rcases List.mem_cons.mp hp with rfl | hp
        · simp
        · simpa using hle p hp
      · intro j hj hj0
        exact absurd hj0 (Nat.not_lt_zero j)
    · refine ⟨i + 1, Nat.succ_lt_succ hi, by simpa using heq, ?_, ?_⟩
      · intro p hp
        rcases List.mem_cons.mp hp with rfl | hp
        · simpa using le_of_lt hlt
        · simpa using hle p hp
      · intro j hj hji
        cases j with
        | zero => simpa using hlt
        | succ j =>
          simpa using hstr j (Nat.lt_of_succ_lt_succ hj) (Nat.lt_of_succ_lt_succ hji)

/-- A 3-entry input that produces a tied maximum pattern score between
`migrana` (earlier in the table) and `hipertension` (later). -/
def tieInput : Symptoms := [("mareos", some 10), ("x", some 1), ("y", some 1)]

/-- The pattern-score map on `tieInput`: `migrana` and `hipertension` tie
at 1/6. -/
def tiePatterns : List (String × ℚ) :=
  [("infeccion_respiratoria", 0), ("gastroenteritis", 0), ("migrana", 1/6),
   ("ansiedad", 1/8), ("diabetes", 0), ("hipertension", 1/6), ("artritis", 0),
   ("enfermedad_cardiaca", 0), ("enfermedad_renal", 0), ("enfermedad_hepatica", 0),
   ("enfermedad_autoimmune", 0), ("cancer", 0), ("enfermedad_neurologica", 1/8)]

set_option maxRecDepth 4000 in
/-- Witness for C10: on a tied map the earlier condition (migrana) wins. -/
theorem C10_condition_tie_break_witness :
    detect_disease_patterns tieInput = Except.ok tiePatterns ∧
    tiePatterns ≠ [] ∧
    tiePatterns.map Prod.fst = disease_patterns.map Prod.fst ∧
    ("hipertension", (1:ℚ)/6) ∈ tiePatterns ∧
    pyMax tiePatterns = ("migrana", 1/6) := by
  have hd : detect_disease_patterns tieInput = Except.ok tiePatterns := by
    norm_num +decide [detect_disease_patterns, detectAux, sumPattern, patternEntryScore,
      weightOf, symptom_weights, disease_patterns, clamp01, lookupKey, tieInput,
      tiePatterns, min_def, max_def, Bind.bind, Except.bind, pure, Except.pure]
  have hne : tiePatterns ≠ [] := by simp [tiePatterns]
  refine ⟨hd, hne, (C10_condition_tie_break tieInput tiePatterns hd hne).1, ?_, ?_⟩
  · norm_num [tiePatterns]
  · norm_num +decide [pyMax, tiePatterns]
